import Mathlib

/-!
Shallow embedding of the Link Registry of `src/app.py` (a URL-shortener
backed by a Postgres table `shortened_urls`).  The table is modelled as a
list of rows in insertion order together with the next SERIAL id; each
database-touching function of the source (`add_url`, `get_original_url`,
`get_url_stats`, `delete_url`, `generate_short_code`) becomes a pure Lean
function on that state.  Timestamps are integers (seconds), one day being
86400 seconds.  Randomness is an oracle `rand : Nat → Nat → Fin 62` giving
the character draws of each generation attempt, and the unbounded
`while True` retry loop of `add_url` is `Nat.find` over the first
collision-free attempt.  The Postgres behaviour of the schema declared in
`init_db` ( `short_code VARCHAR(10) UNIQUE NOT NULL` ) is part of the
model: an INSERT fails when the code exceeds 10 characters (unless the
excess is all blanks, which Postgres truncates) or when the code is
already present.
-/

/-- Alphabet of `generate_short_code`: `string.ascii_letters + string.digits`,
62 case-sensitive alphanumeric characters. -/
def chars : List Char :=
  ("abcdefghijklmnopqrstuvwxyzABCDEFGHIJKLMNOPQRSTUVWXYZ0123456789").toList

theorem chars_length : chars.length = 62 := rfl

/-- Python `str.isspace` characters relevant to `str.strip()`. -/
def pyIsSpace (c : Char) : Bool :=
  c == ' ' || c == '\t' || c == '\n' || c == '\r' || c == '\x0b' || c == '\x0c'

/-- Python `str.strip()`: drop leading and trailing whitespace. -/
def pyStrip (s : String) : String :=
  String.mk (((s.toList.dropWhile pyIsSpace).reverse.dropWhile pyIsSpace).reverse)

/-- One row of the `shortened_urls` table of `init_db`. -/
structure Row where
  id : Nat
  original_url : String
  short_code : String
  created_at : Int
  expires_at : Option Int
  access_count : Nat
  last_accessed : Option Int
  created_by : Option String
  is_custom : Bool
  notes : Option String
  deriving DecidableEq

/-- The database state: rows in insertion order plus the next SERIAL id. -/
structure DB where
  rows : List Row
  next_id : Nat
  deriving DecidableEq

def emptyDB : DB := { rows := [], next_id := 1 }

/-- Does some stored row carry this exact short code
(`SELECT id FROM shortened_urls WHERE short_code = %s`)? -/
def codeTaken (db : DB) (code : String) : Bool :=
  db.rows.any (fun r => r.short_code == code)

/-- Model of `generate_short_code(length)`: each position is an
independent uniform draw from the 62-character alphabet, here supplied by
the oracle `draw`. -/
def generate_short_code (draw : Nat → Fin 62) (length : Nat) : String :=
  String.mk ((List.range length).map (fun i => chars.get (Fin.cast chars_length.symm (draw i))))

/-- The candidate code of generation attempt `attempt` (the source calls
`generate_short_code()` with the default length 6 on every loop run). -/
def candidate (rand : Nat → Nat → Fin 62) (attempt : Nat) : String :=
  generate_short_code (rand attempt) 6

/-- Postgres assignment of a string to a `VARCHAR(n)` column: kept as is
when it fits, truncated when the excess is all blanks, rejected otherwise. -/
def varcharFit (n : Nat) (s : String) : Option String :=
  if s.length ≤ n then some s
  else if (s.toList.drop n).all (fun c => c == ' ') then some (String.mk (s.toList.take n))
  else none

/-- The row built by the INSERT of `add_url`: fresh SERIAL id,
`created_at` defaults to the current timestamp, `access_count` to 0,
`last_accessed` to NULL. -/
def newRow (db : DB) (url code : String) (expires : Option Int)
    (notes creator : Option String) (isc : Bool) (now : Int) : Row :=
  { id := db.next_id, original_url := url, short_code := code, created_at := now,
    expires_at := expires, access_count := 0, last_accessed := none,
    created_by := creator, is_custom := isc, notes := notes }

/-- The INSERT statement of `add_url` under the schema of `init_db`:
the `short_code` column is `VARCHAR(10) UNIQUE NOT NULL`, so the insert
raises when the code does not fit in 10 characters or when it collides
with a stored code; otherwise one row is appended. -/
def insertRow (db : DB) (url code : String) (expires : Option Int)
    (notes creator : Option String) (isc : Bool) (now : Int) : Except String DB :=
  match varcharFit 10 code with
  | none => Except.error ("value too long for type character varying(10)")
  | some code2 =>
    if codeTaken db code2 then
      Except.error ("duplicate key value violates unique constraint")
    else
      Except.ok { rows := db.rows ++ [newRow db url code2 expires notes creator isc now],
                  next_id := db.next_id + 1 }

/-- The `try/except` around the INSERT in `add_url`: on success commit and
return the code, on any exception roll back and return the message. -/
def insertStep (db : DB) (url code : String) (expires : Option Int)
    (notes creator : Option String) (isc : Bool) (now : Int) :
    (Option String × Option String) × DB :=
  match insertRow db url code expires notes creator isc now with
  | Except.ok db2 => ((some code, none), db2)
  | Except.error e => ((none, some e), db)

/-- Expiry handling of `add_url`: `if expiry_days and expiry_days > 0:`
sets `expires_at = now + timedelta(days=expiry_days)`, else NULL. -/
def expiresAtOf (expiry_days : Option Int) (now : Int) : Option Int :=
  match expiry_days with
  | some d => if 0 < d then some (now + d * 86400) else none
  | none => none

/-- Dedup lookup of `add_url` for non-custom requests:
`SELECT short_code FROM shortened_urls WHERE original_url = %s AND is_custom = FALSE`. -/
def dedupLookup (db : DB) (url : String) : Option Row :=
  db.rows.find? (fun r => r.original_url == url && !r.is_custom)

/-- Model of `add_url(original_url, custom_code, expiry_days, notes, creator)`.
`hfresh` is the termination evidence for the `while True` generation loop:
whenever the loop runs (no usable custom code and no dedup hit) some
attempt produces a collision-free candidate; the source relies on this to
terminate.  Note that the dedup branch of the source does not return early:
it falls through to the INSERT with the existing code. -/
def add_url (db : DB) (original_url : String) (custom_code : Option String)
    (expiry_days : Option Int) (notes creator : Option String) (now : Int)
    (rand : Nat → Nat → Fin 62)
    (hfresh : pyStrip (custom_code.getD ("")) = "" →
      dedupLookup db original_url = none →
      ∃ n, codeTaken db (candidate rand n) = false) :
    (Option String × Option String) × DB :=
  if hc : pyStrip (custom_code.getD ("")) = "" then
    match hm : dedupLookup db original_url with
    | some r =>
      insertStep db original_url r.short_code (expiresAtOf expiry_days now)
        notes creator false now
    | none =>
      insertStep db original_url (candidate rand (Nat.find (hfresh hc hm)))
        (expiresAtOf expiry_days now) notes creator false now
  else
    if codeTaken db (pyStrip (custom_code.getD (""))) then
      ((none, some ("Custom code already in use")), db)
    else
      insertStep db original_url (pyStrip (custom_code.getD ("")))
        (expiresAtOf expiry_days now) notes creator true now

/-- Expiry test of `get_original_url`:
`if expires_at and expires_at < datetime.datetime.now()`. -/
def isExpired (expires_at : Option Int) (now : Int) : Bool :=
  match expires_at with
  | some e => decide (e < now)
  | none => false

/-- The UPDATE of `get_original_url`: bump `access_count` and stamp
`last_accessed` on every row carrying the code. -/
def touchRows (rows : List Row) (code : String) (now : Int) : List Row :=
  rows.map (fun r =>
    if r.short_code == code then
      { r with access_count := r.access_count + 1, last_accessed := some now }
    else r)

/-- Model of `get_original_url(short_code)`: look the code up, report
`NotFound` or `Expired` without touching the state, otherwise increment
the access count, stamp the access time and return the destination. -/
def get_original_url (db : DB) (short_code : String) (now : Int) :
    (Option String × Option String) × DB :=
  match db.rows.find? (fun r => r.short_code == short_code) with
  | none => ((none, some ("Short code not found")), db)
  | some r =>
    if isExpired r.expires_at now then
      ((none, some ("This short URL has expired")), db)
    else
      ((some r.original_url, none),
        { rows := touchRows db.rows short_code now, next_id := db.next_id })

/-- Model of `delete_url(short_code)`: `DELETE FROM shortened_urls WHERE
short_code = %s` removes the matching rows (zero or more) and commits;
a DELETE matching no row raises nothing, so the function returns True. -/
def delete_url (db : DB) (short_code : String) : Bool × DB :=
  (true, { rows := db.rows.filter (fun r => !(r.short_code == short_code)),
           next_id := db.next_id })

/-- Comparison of the `ORDER BY access_count DESC` of `get_url_stats`. -/
def byCountDesc (a b : Row) : Bool :=
  decide (b.access_count ≤ a.access_count)

/-- The per-URL query of `get_url_stats`:
`SELECT ... FROM shortened_urls ORDER BY access_count DESC LIMIT 20`,
modelled with a stable sort so that ties keep insertion (creation) order. -/
def statsQuery (db : DB) : List Row :=
  (db.rows.mergeSort byCountDesc).take 20

def accessCounts (db : DB) : List Nat :=
  db.rows.map (fun r => r.access_count)

/-- The aggregate query of `get_url_stats`:
`SELECT COUNT(*), SUM(access_count), MAX(access_count), AVG(access_count)`.
On an empty table COUNT is 0 and SUM, MAX, AVG are NULL (`none`); AVG is
an exact numeric, modelled as a rational. -/
def overallStats (db : DB) : Nat × Option Nat × Option Nat × Option ℚ :=
  if db.rows.isEmpty then (0, none, none, none)
  else (db.rows.length,
        some (accessCounts db).sum,
        some ((accessCounts db).foldl Nat.max 0),
        some (((accessCounts db).sum : ℚ) / (db.rows.length : ℚ)))

/-- Model of `get_url_stats()`: both result sets, and the state unchanged
(the function only reads). -/
def get_url_stats (db : DB) :
    (List Row × (Nat × Option Nat × Option Nat × Option ℚ)) × DB :=
  ((statsQuery db, overallStats db), db)

/-- Round-half-to-even on rationals, the rounding used by Python `round`
on the Decimal values psycopg2 returns for AVG. -/
def roundHalfEven (x : ℚ) : Int :=
  if x - ⌊x⌋ < 1 / 2 then ⌊x⌋
  else if x - ⌊x⌋ = 1 / 2 then (if Even ⌊x⌋ then ⌊x⌋ else ⌊x⌋ + 1)
  else ⌊x⌋ + 1

/-- Python `round(q, 1)`. -/
def pythonRound1 (q : ℚ) : ℚ :=
  ((roundHalfEven (10 * q) : ℤ) : ℚ) / 10

/-- The numbers the statistics tab renders from `overall_stats`:
`total_urls`, `total_clicks or 0`, `max_clicks or 0`,
`round(avg_clicks or 0, 1)`. -/
def displayedStats (db : DB) : Nat × Nat × Nat × ℚ :=
  match overallStats db with
  | (t, s, m, a) => (t, s.getD 0, m.getD 0, pythonRound1 (a.getD 0))

/-- Constant random oracle: every draw is the first alphabet character. -/
def zeroRand : Nat → Nat → Fin 62 := fun _ _ => 0

/-- Constant random oracle: every draw is the second alphabet character. -/
def oneRand : Nat → Nat → Fin 62 := fun _ _ => 1

/-- The row produced by a first non-custom creation under `zeroRand`. -/
def row1 : Row :=
  { id := 1, original_url := ("https://example.com/page"), short_code := ("aaaaaa"),
    created_at := 0, expires_at := none, access_count := 0, last_accessed := none,
    created_by := none, is_custom := false, notes := none }

/-- A one-row registry holding `row1`. -/
def db1 : DB := { rows := [row1], next_id := 2 }

/-- A stored custom link whose expiry lies in the past for `now = 10`. -/
def rowExp : Row :=
  { id := 1, original_url := ("https://old.example.com"), short_code := ("old123"),
    created_at := 0, expires_at := some 5, access_count := 3, last_accessed := none,
    created_by := none, is_custom := true, notes := none }

/-- A one-row registry holding the expired link `rowExp`. -/
def dbExp : DB := { rows := [rowExp], next_id := 2 }

/-- The row produced by a custom creation with a five-day expiry at time 0. -/
def rowC8 : Row :=
  { id := 1, original_url := ("https://example.com/page"), short_code := ("mycode"),
    created_at := 0, expires_at := some 432000, access_count := 0, last_accessed := none,
    created_by := none, is_custom := true, notes := none }

/-- Loop-termination evidence from a concrete collision-free first attempt. -/
theorem hfreshOfFresh {db : DB} {url : String} {custom : Option String}
    {rand : Nat → Nat → Fin 62} (h : codeTaken db (candidate rand 0) = false) :
    pyStrip (custom.getD ("")) = "" → dedupLookup db url = none →
      ∃ n, codeTaken db (candidate rand n) = false :=
  fun _ _ => ⟨0, h⟩

theorem codeTaken_eq_false_iff (db : DB) (c : String) :
    codeTaken db c = false ↔ ∀ r ∈ db.rows, r.short_code ≠ c := by
  simp [codeTaken, List.any_eq_false]

theorem insertStep_ok (db : DB) (url code : String) (expires : Option Int)
    (notes creator : Option String) (isc : Bool) (now : Int)
    (h1 : code.length ≤ 10) (h2 : codeTaken db code = false) :
    insertStep db url code expires notes creator isc now =
      ((some code, none),
        { rows := db.rows ++ [newRow db url code expires notes creator isc now],
          next_id := db.next_id + 1 }) := by
  unfold insertStep insertRow varcharFit
  rw [if_pos h1]
  simp [h2]

theorem insertStep_dup (db : DB) (url code : String) (expires : Option Int)
    (notes creator : Option String) (isc : Bool) (now : Int)
    (h1 : code.length ≤ 10) (h2 : codeTaken db code = true) :
    insertStep db url code expires notes creator isc now =
      ((none, some ("duplicate key value violates unique constraint")), db) := by
  unfold insertStep insertRow varcharFit
  rw [if_pos h1]
  simp [h2]

theorem insertStep_long (db : DB) (url code : String) (expires : Option Int)
    (notes creator : Option String) (isc : Bool) (now : Int)
    (h1 : 10 < code.length)
    (h2 : (code.toList.drop 10).all (fun c => c == ' ') = false) :
    insertStep db url code expires notes creator isc now =
      ((none, some ("value too long for type character varying(10)")), db) := by
  unfold insertStep insertRow varcharFit
  rw [if_neg (by omega), if_neg (by rw [h2]; exact Bool.false_ne_true)]

theorem add_url_dedup {db : DB} {url : String} {custom : Option String}
    {expiry_days : Option Int} {notes creator : Option String} {now : Int}
    {rand : Nat → Nat → Fin 62} {hfresh : pyStrip (custom.getD ("")) = "" →
      dedupLookup db url = none → ∃ n, codeTaken db (candidate rand n) = false}
    (r : Row) (hc : pyStrip (custom.getD ("")) = "")
    (hm : dedupLookup db url = some r) :
    add_url db url custom expiry_days notes creator now rand hfresh =
      insertStep db url r.short_code (expiresAtOf expiry_days now)
        notes creator false now := by
  unfold add_url
  rw [dif_pos hc]
  split
  · rename_i r2 heq
    rw [hm] at heq
    cases heq
    rfl
  · rename_i heq
    rw [hm] at heq
    cases heq

theorem add_url_generate {db : DB} {url : String} {custom : Option String}
    {expiry_days : Option Int} {notes creator : Option String} {now : Int}
    {rand : Nat → Nat → Fin 62} {hfresh : pyStrip (custom.getD ("")) = "" →
      dedupLookup db url = none → ∃ n, codeTaken db (candidate rand n) = false}
    (hc : pyStrip (custom.getD ("")) = "")
    (hm : dedupLookup db url = none) :
    add_url db url custom expiry_days notes creator now rand hfresh =
      insertStep db url (candidate rand (Nat.find (hfresh hc hm)))
        (expiresAtOf expiry_days now) notes creator false now := by
  unfold add_url
  rw [dif_pos hc]
  split
  · rename_i r2 heq
    rw [hm] at heq
    cases heq
  · rfl

theorem add_url_generate_val {db : DB} {url : String} {custom : Option String}
    {expiry_days : Option Int} {notes creator : Option String} {now : Int}
    {rand : Nat → Nat → Fin 62} {hfresh : pyStrip (custom.getD ("")) = "" →
      dedupLookup db url = none → ∃ n, codeTaken db (candidate rand n) = false}
    (hc : pyStrip (custom.getD ("")) = "")
    (hm : dedupLookup db url = none) (k : Nat)
    (hk : codeTaken db (candidate rand k) = false)
    (hmin : ∀ m, m < k → codeTaken db (candidate rand m) = true) :
    add_url db url custom expiry_days notes creator now rand hfresh =
      insertStep db url (candidate rand k) (expiresAtOf expiry_days now)
        notes creator false now := by
  rw [add_url_generate hc hm]
  have hfk : Nat.find (hfresh hc hm) = k := by
    rw [Nat.find_eq_iff]
    exact ⟨hk, fun m hmk => by simp [hmin m hmk]⟩
  rw [hfk]

theorem add_url_conflict {db : DB} {url : String} {custom : Option String}
    {expiry_days : Option Int} {notes creator : Option String} {now : Int}
    {rand : Nat → Nat → Fin 62} {hfresh : pyStrip (custom.getD ("")) = "" →
      dedupLookup db url = none → ∃ n, codeTaken db (candidate rand n) = false}
    (hc : pyStrip (custom.getD ("")) ≠ "")
    (ht : codeTaken db (pyStrip (custom.getD (""))) = true) :
    add_url db url custom expiry_days notes creator now rand hfresh =
      ((none, some ("Custom code already in use")), db) := by
  unfold add_url
  rw [dif_neg hc, if_pos ht]

theorem add_url_custom_go {db : DB} {url : String} {custom : Option String}
    {expiry_days : Option Int} {notes creator : Option String} {now : Int}
    {rand : Nat → Nat → Fin 62} {hfresh : pyStrip (custom.getD ("")) = "" →
      dedupLookup db url = none → ∃ n, codeTaken db (candidate rand n) = false}
    (hc : pyStrip (custom.getD ("")) ≠ "")
    (ht : codeTaken db (pyStrip (custom.getD (""))) = false) :
    add_url db url custom expiry_days notes creator now rand hfresh =
      insertStep db url (pyStrip (custom.getD ("")))
        (expiresAtOf expiry_days now) notes creator true now := by
  unfold add_url
  rw [dif_neg hc, if_neg (by simp [ht])]

theorem dropWhile_reverse_drop_not_space (l0 : List Char)
    (h10 : 10 < (l0.dropWhile pyIsSpace).length) :
    ((l0.dropWhile pyIsSpace).reverse.drop 10).all (fun c => c == ' ') = false := by
  by_contra hcon
  have hall : ((l0.dropWhile pyIsSpace).reverse.drop 10).all (fun c => c == ' ') = true := by
    cases hAll : ((l0.dropWhile pyIsSpace).reverse.drop 10).all (fun c => c == ' ') with
    | false => exact absurd hAll hcon
    | true => rfl
  have hne : l0.dropWhile pyIsSpace ≠ [] := by
    intro he
    rw [he] at h10
    simp at h10
  have hhead : ((l0.dropWhile pyIsSpace).reverse.drop 10).getLast?
      = some ((l0.dropWhile pyIsSpace).head hne) := by
    rw [List.getLast?_drop,
      if_neg (by rw [List.length_reverse]; omega),
      List.getLast?_reverse, List.head?_eq_head hne]
  have hmem : (l0.dropWhile pyIsSpace).head hne ∈ (l0.dropWhile pyIsSpace).reverse.drop 10 :=
    List.mem_of_mem_getLast? hhead
  have hsp := List.all_eq_true.mp hall _ hmem
  have hsp2 : (l0.dropWhile pyIsSpace).head hne = ' ' := by
    simpa using hsp
  have hns : pyIsSpace ((l0.dropWhile pyIsSpace).head hne) = false := by
    have h2 := List.head?_dropWhile_not pyIsSpace l0
    rw [List.head?_eq_head hne] at h2
    exact h2
  rw [hsp2] at hns
  simp [pyIsSpace] at hns

theorem pyStrip_length (s : String) :
    (pyStrip s).length =
      ((s.toList.dropWhile pyIsSpace).reverse.dropWhile pyIsSpace).length := by
  simp [pyStrip, String.length_mk]

theorem pyStrip_drop10_not_space (s : String) (h : 10 < (pyStrip s).length) :
    ((pyStrip s).toList.drop 10).all (fun c => c == ' ') = false := by
  have h2 : 10 < ((s.toList.dropWhile pyIsSpace).reverse.dropWhile pyIsSpace).length := by
    rw [pyStrip_length] at h
    exact h
  exact dropWhile_reverse_drop_not_space _ h2

theorem expiresAtOf_pos (d : Int) (now : Int) (h : 0 < d) :
    expiresAtOf (some d) now = some (now + d * 86400) := by
  simp [expiresAtOf, h]

theorem expiresAtOf_nonpos (d : Int) (now : Int) (h : d ≤ 0) :
    expiresAtOf (some d) now = none := by
  simp [expiresAtOf]
  omega

theorem isExpired_expiresAtOf (d : Option Int) (now : Int) :
    isExpired (expiresAtOf d now) now = false := by
  match d with
  | none => rfl
  | some v =>
    simp only [expiresAtOf]
    by_cases h : 0 < v
    · rw [if_pos h]
      simp only [isExpired, decide_eq_false_iff_not]
      omega
    · rw [if_neg h]
      rfl

theorem generate_short_code_length (draw : Nat → Fin 62) (n : Nat) :
    (generate_short_code draw n).length = n := by
  simp [generate_short_code, String.length_mk]

theorem generate_short_code_chars (draw : Nat → Fin 62) (n : Nat) :
    ∀ ch ∈ (generate_short_code draw n).toList, ch ∈ chars := by
  intro ch hch
  simp only [generate_short_code, String.toList, List.mem_map] at hch
  obtain ⟨i, _, rfl⟩ := hch
  exact List.get_mem _ _ _

theorem candidate_length (rand : Nat → Nat → Fin 62) (k : Nat) :
    (candidate rand k).length = 6 :=
  generate_short_code_length _ _

theorem find?_code_append (rows : List Row) (row : Row) (c : String)
    (h : ∀ r ∈ rows, r.short_code ≠ c) (hr : row.short_code = c) :
    (rows ++ [row]).find? (fun r => r.short_code == c) = some row := by
  rw [List.find?_append]
  have h1 : rows.find? (fun r => r.short_code == c) = none :=
    List.find?_eq_none.mpr (by
      intro x hx
      simp only [beq_iff_eq]
      exact h x hx)
  rw [h1, List.find?_cons_of_pos _ (by simp [hr])]
  rfl

theorem insertStep_state (db : DB) (url code : String) (expires : Option Int)
    (notes creator : Option String) (isc : Bool) (now : Int) :
    (insertStep db url code expires notes creator isc now).2 = db ∨
    ∃ code2,
      (insertStep db url code expires notes creator isc now).2.rows =
        db.rows ++ [newRow db url code2 expires notes creator isc now] := by
  unfold insertStep insertRow
  cases hv : varcharFit 10 code with
  | none =>
    simp only [hv]
    left
    trivial
  | some code2 =>
    simp only [hv]
    by_cases ht : codeTaken db code2 = true
    · rw [if_pos ht]
      left
      trivial
    · rw [if_neg ht]
      right
      exact ⟨code2, rfl⟩

theorem add_url_state (db : DB) (url : String) (custom : Option String)
    (expiry_days : Option Int) (notes creator : Option String) (now : Int)
    (rand : Nat → Nat → Fin 62)
    (hfresh : pyStrip (custom.getD ("")) = "" → dedupLookup db url = none →
      ∃ n, codeTaken db (candidate rand n) = false) :
    (add_url db url custom expiry_days notes creator now rand hfresh).2 = db ∨
    ∃ code2 isc,
      (add_url db url custom expiry_days notes creator now rand hfresh).2.rows =
        db.rows ++ [newRow db url code2 (expiresAtOf expiry_days now)
          notes creator isc now] := by
  unfold add_url
  split
  · split
    · rename_i r heq
      rcases insertStep_state db url r.short_code (expiresAtOf expiry_days now)
        notes creator false now with h | ⟨code2, h⟩
      · left
        exact h
      · right
        exact ⟨code2, false, h⟩
    · rename_i hc heq
      rcases insertStep_state db url
        (candidate rand (Nat.find (hfresh hc heq))) (expiresAtOf expiry_days now)
        notes creator false now with h | ⟨code2, h⟩
      · left
        exact h
      · right
        exact ⟨code2, false, h⟩
  · split
    · left
      rfl
    · rcases insertStep_state db url (pyStrip (custom.getD ("")))
        (expiresAtOf expiry_days now) notes creator true now with h | ⟨code2, h⟩
      · left
        exact h
      · right
        exact ⟨code2, true, h⟩

/-- C6: on an empty registry the aggregate query returns count 0 with NULL
sum, max and average, and the statistics tab renders totalLinks 0,
totalClicks 0, maxClicks 0 and avgClicks 0; everything is total, no
division by zero occurs. -/
theorem claim_C6_empty_stats :
    overallStats emptyDB = (0, none, none, none) ∧
    displayedStats emptyDB = (0, 0, 0, 0) := by
  constructor
  · rfl
  · simp [displayedStats, overallStats, emptyDB, pythonRound1, roundHalfEven]

/-- C9: the per-URL listing of `get_url_stats` returns at most 20 entries,
ordered by access count descending (the model's stable sort breaks ties
deterministically by creation order), drawn from the stored rows, and the
registry state is unchanged by the call. -/
theorem claim_C9_listTop (db : DB) :
    (get_url_stats db).2 = db ∧
    ((get_url_stats db).1.1).length ≤ 20 ∧
    List.Pairwise (fun a b => b.access_count ≤ a.access_count) ((get_url_stats db).1.1) ∧
    ∀ r ∈ (get_url_stats db).1.1, r ∈ db.rows := by
  refine ⟨rfl, ?_, ?_, ?_⟩
  · show ((db.rows.mergeSort byCountDesc).take 20).length ≤ 20
    rw [List.length_take]
    exact min_le_left _ _
  · have htrans : ∀ a b c : Row, byCountDesc a b = true → byCountDesc b c = true →
        byCountDesc a c = true := by
      intro a b c hab hbc
      simp only [byCountDesc, decide_eq_true_eq] at hab hbc ⊢
      omega
    have htotal : ∀ a b : Row, (byCountDesc a b || byCountDesc b a) = true := by
      intro a b
      simp only [byCountDesc, Bool.or_eq_true, decide_eq_true_eq]
      exact Nat.le_total _ _
    have hs := List.sorted_mergeSort htrans htotal db.rows
    have hsub : ((db.rows.mergeSort byCountDesc).take 20).Sublist
        (db.rows.mergeSort byCountDesc) := List.take_sublist _ _
    exact (List.Pairwise.sublist hsub hs).imp
      (by intro a b hab; simpa [byCountDesc] using hab)
  · intro r hr
    have h1 : r ∈ db.rows.mergeSort byCountDesc := (List.take_sublist _ _).subset hr
    exact (List.mergeSort_perm db.rows byCountDesc).subset h1

/-- C5 counterexample: deleting a code absent from the registry is reported
as a success (`True`), not as a failure, contradicting the claim. -/
theorem claim_C5_counterexample :
    (delete_url emptyDB ("ghost1")).1 = true ∧
    delete_url emptyDB ("ghost1") = (true, emptyDB) :=
  ⟨rfl, rfl⟩

/-- C5 amended: deleting a code not present in the registry returns success
(`True`, the DELETE simply matches no row and raises nothing) and leaves
the registry state unchanged. -/
theorem claim_C5_amended (db : DB) (c : String)
    (h : ∀ r ∈ db.rows, r.short_code ≠ c) :
    delete_url db c = (true, db) := by
  unfold delete_url
  have hf : db.rows.filter (fun r => !(r.short_code == c)) = db.rows :=
    List.filter_eq_self.mpr (by
      intro a ha
      simp [h a ha])
  rw [hf]

/-- C5 witness: deleting an absent code from the one-row registry. -/
theorem claim_C5_witness :
    (∀ r ∈ db1.rows, r.short_code ≠ ("zzzzzz")) ∧
    delete_url db1 ("zzzzzz") = (true, db1) :=
  ⟨by decide, claim_C5_amended db1 ("zzzzzz") (by decide)⟩

/-- C4: resolving a stored code whose expiry timestamp is set and earlier
than the current time fails with the expiry error and returns the state
unchanged, so in particular `access_count` and `last_accessed` of the
entry are untouched. -/
theorem claim_C4_expired_resolve (db : DB) (code : String) (now e : Int) (r : Row)
    (hfind : db.rows.find? (fun x => x.short_code == code) = some r)
    (hexp : r.expires_at = some e) (hlt : e < now) :
    get_original_url db code now = ((none, some ("This short URL has expired")), db) := by
  simp only [get_original_url, hfind]
  rw [if_pos (show isExpired r.expires_at now = true by rw [hexp]; simp [isExpired, hlt])]

/-- C4 witness: the expired link `rowExp` resolved at time 10. -/
theorem claim_C4_witness :
    (dbExp.rows.find? (fun x => x.short_code == ("old123")) = some rowExp) ∧
    (rowExp.expires_at = some 5) ∧ ((5 : Int) < 10) ∧
    get_original_url dbExp ("old123") 10 =
      ((none, some ("This short URL has expired")), dbExp) :=
  ⟨by decide, rfl, by decide,
    claim_C4_expired_resolve dbExp ("old123") 10 5 rowExp (by decide) rfl (by decide)⟩

/-- C3: submitting a custom code whose trimmed form equals a stored code
(the uniqueness probe does not care whether that entry is expired) fails
with the conflict message and leaves the registry unchanged, whatever the
destination and options. -/
theorem claim_C3_custom_conflict (db : DB) (url c : String) (expiry_days : Option Int)
    (notes creator : Option String) (now : Int) (rand : Nat → Nat → Fin 62)
    (hfresh : pyStrip ((some c : Option String).getD ("")) = "" →
      dedupLookup db url = none → ∃ n, codeTaken db (candidate rand n) = false)
    (hne : pyStrip c ≠ "")
    (ht : codeTaken db (pyStrip c) = true) :
    add_url db url (some c) expiry_days notes creator now rand hfresh =
      ((none, some ("Custom code already in use")), db) :=
  add_url_conflict hne ht

/-- C3 witness: reusing the custom code of the expired link `rowExp`. -/
theorem claim_C3_witness :
    (pyStrip ("old123") ≠ "") ∧ (codeTaken dbExp (pyStrip ("old123")) = true) ∧
    add_url dbExp ("https://new.example.com") (some ("old123")) none none none 0
        zeroRand (hfreshOfFresh (by decide)) =
      ((none, some ("Custom code already in use")), dbExp) :=
  ⟨by decide, by decide,
    claim_C3_custom_conflict dbExp ("https://new.example.com") ("old123") none none none 0
      zeroRand (hfreshOfFresh (by decide)) (by decide) (by decide)⟩

/-- C1: evaluation of the source at the failing input.  The first
non-custom `create("https://example.com/page")` succeeds and stores the
generated code; the second call for the same destination finds the dedup
row, but since the dedup branch falls through to the INSERT, it re-inserts
the existing code, violates the UNIQUE constraint on `short_code`, and
returns an error with no new row — the claim that both calls succeed with
the same code fails on the code. -/
theorem claim_C1_dedup_reinsert_fails :
    add_url emptyDB ("https://example.com/page") none none none none 0 zeroRand
        (hfreshOfFresh (by decide))
      = ((some ("aaaaaa"), none), db1) ∧
    add_url db1 ("https://example.com/page") none none none none 0 oneRand
        (hfreshOfFresh (by decide))
      = ((none, some ("duplicate key value violates unique constraint")), db1) := by
  constructor
  · rw [add_url_generate_val (by decide) (by decide) 0 (by decide)
      (by intro m hm; exact absurd hm (Nat.not_lt_zero m))]
    decide
  · rw [add_url_dedup row1 (by decide) (by decide)]
    decide

/-- C2 counterexample: an 11-character custom code, fresh and non-empty
after trimming, makes `create` fail (the `short_code` column is
VARCHAR(10)), refuting the claim that creation succeeds for every unused
custom code. -/
theorem claim_C2_counterexample :
    add_url emptyDB ("https://example.com/page") (some ("abcdefghijk")) none none none 0
        zeroRand (hfreshOfFresh (by decide))
      = ((none, some ("value too long for type character varying(10)")), emptyDB) := by
  decide

/-- C2 amended: for every custom code whose trimmed form is non-empty, at
most 10 characters long, and distinct from all stored codes, creation
succeeds returning the trimmed code, and resolving that code afterwards
returns the submitted destination. -/
theorem claim_C2_amended (db : DB) (url c : String) (expiry_days : Option Int)
    (notes creator : Option String) (now : Int) (rand : Nat → Nat → Fin 62)
    (hfresh : pyStrip ((some c : Option String).getD ("")) = "" →
      dedupLookup db url = none → ∃ n, codeTaken db (candidate rand n) = false)
    (hne : pyStrip c ≠ "")
    (hlen : (pyStrip c).length ≤ 10)
    (hfree : codeTaken db (pyStrip c) = false) :
    ∃ db2,
      add_url db url (some c) expiry_days notes creator now rand hfresh
        = ((some (pyStrip c), none), db2) ∧
      (get_original_url db2 (pyStrip c) now).1 = (some url, none) := by
  have hne2 : pyStrip ((some c : Option String).getD ("")) ≠ "" := hne
  have hfree2 : codeTaken db (pyStrip ((some c : Option String).getD (""))) = false := hfree
  rw [add_url_custom_go hne2 hfree2]
  simp only [Option.getD_some]
  rw [insertStep_ok db url (pyStrip c) (expiresAtOf expiry_days now) notes creator true now
    hlen hfree]
  refine ⟨_, rfl, ?_⟩
  have hnone : List.find? (fun r => r.short_code == pyStrip c) db.rows = none :=
    List.find?_eq_none.mpr (by
      intro x hx
      simp only [beq_iff_eq]
      exact (codeTaken_eq_false_iff db _).mp hfree x hx)
  simp [get_original_url, hnone, newRow, isExpired_expiresAtOf, touchRows]

/-- C2 witness: a fresh six-character custom code on the one-row registry. -/
theorem claim_C2_witness :
    (pyStrip ("mylink") ≠ "") ∧ ((pyStrip ("mylink")).length ≤ 10) ∧
    (codeTaken db1 (pyStrip ("mylink")) = false) ∧
    ∃ db2,
      add_url db1 ("https://dest.example.net") (some ("mylink")) none none none 7 oneRand
          (hfreshOfFresh (by decide))
        = ((some (pyStrip ("mylink")), none), db2) ∧
      (get_original_url db2 (pyStrip ("mylink")) 7).1 = (some ("https://dest.example.net"), none) :=
  ⟨by decide, by decide, by decide,
    claim_C2_amended db1 ("https://dest.example.net") ("mylink") none none none 7 oneRand
      (hfreshOfFresh (by decide)) (by decide) (by decide) (by decide)⟩

/-- C7: whenever `add_url` takes the generation path (no usable custom
code, no dedup hit), the call returns the first collision-free candidate
of the random stream: a 6-character code over the 62-character alphabet
that no stored row carries, while every earlier attempt collided — the
loop retries without any cap until a free candidate appears. -/
theorem claim_C7_generated_code (db : DB) (url : String) (custom : Option String)
    (expiry_days : Option Int) (notes creator : Option String) (now : Int)
    (rand : Nat → Nat → Fin 62)
    (hfresh : pyStrip (custom.getD ("")) = "" → dedupLookup db url = none →
      ∃ n, codeTaken db (candidate rand n) = false)
    (hc : pyStrip (custom.getD ("")) = "")
    (hm : dedupLookup db url = none) :
    ∃ k,
      (add_url db url custom expiry_days notes creator now rand hfresh).1
        = (some (candidate rand k), none) ∧
      (candidate rand k).length = 6 ∧
      (∀ ch ∈ (candidate rand k).toList, ch ∈ chars) ∧
      codeTaken db (candidate rand k) = false ∧
      (∀ m, m < k → codeTaken db (candidate rand m) = true) := by
  refine ⟨Nat.find (hfresh hc hm), ?_, candidate_length rand _,
    generate_short_code_chars _ _, Nat.find_spec (hfresh hc hm), ?_⟩
  · rw [add_url_generate hc hm,
      insertStep_ok db url _ _ notes creator false now
        (by rw [candidate_length]; omega) (Nat.find_spec (hfresh hc hm))]
  · intro m hm2
    have hmin := Nat.find_min (hfresh hc hm) hm2
    simpa using hmin

/-- C7 witness: generation over the one-row registry with the constant
second-character oracle; the first attempt is already collision-free. -/
theorem claim_C7_witness :
    (pyStrip ((none : Option String).getD ("")) = "") ∧
    (dedupLookup db1 ("https://other.example.org") = none) ∧
    ∃ k,
      (add_url db1 ("https://other.example.org") none none none none 0 oneRand
          (hfreshOfFresh (by decide))).1
        = (some (candidate oneRand k), none) ∧
      (candidate oneRand k).length = 6 ∧
      (∀ ch ∈ (candidate oneRand k).toList, ch ∈ chars) ∧
      codeTaken db1 (candidate oneRand k) = false ∧
      (∀ m, m < k → codeTaken db1 (candidate oneRand m) = true) :=
  ⟨by decide, by decide,
    claim_C7_generated_code db1 ("https://other.example.org") none none none none 0 oneRand
      (hfreshOfFresh (by decide)) (by decide) (by decide)⟩

/-- C8: whenever a `create` call inserts a row, the stored `expires_at`
equals the creation timestamp plus `expiry_days` days (86400 seconds each)
when `expiry_days` is positive, and is NULL when `expiry_days` is absent,
zero or negative. -/
theorem claim_C8_expiry (db : DB) (url : String) (custom : Option String)
    (expiry_days : Option Int) (notes creator : Option String) (now : Int)
    (rand : Nat → Nat → Fin 62)
    (hfresh : pyStrip (custom.getD ("")) = "" → dedupLookup db url = none →
      ∃ n, codeTaken db (candidate rand n) = false)
    (r : Row)
    (h : (add_url db url custom expiry_days notes creator now rand hfresh).2.rows
          = db.rows ++ [r]) :
    (∀ d, expiry_days = some d → 0 < d → r.expires_at = some (r.created_at + d * 86400)) ∧
    ((∀ d, expiry_days = some d → d ≤ 0) → r.expires_at = none) := by
  rcases add_url_state db url custom expiry_days notes creator now rand hfresh with
    he | ⟨code2, isc, he⟩
  · rw [he] at h
    have hlen := congrArg List.length h
    simp at hlen
  · rw [he] at h
    have h2 := List.append_cancel_left h
    have h3 : newRow db url code2 (expiresAtOf expiry_days now) notes creator isc now = r := by
      simpa using h2
    constructor
    · intro d hd hdpos
      rw [← h3]
      simp only [newRow]
      rw [hd, expiresAtOf_pos d now hdpos]
    · intro hnp
      rw [← h3]
      simp only [newRow]
      cases expiry_days with
      | none => rfl
      | some d => exact expiresAtOf_nonpos d now (hnp d rfl)

/-- C8 witness: a custom creation with a five-day expiry at time 0 stores
`expires_at = 432000`. -/
theorem claim_C8_witness :
    ((add_url emptyDB ("https://example.com/page") (some ("mycode")) (some 5) none none 0
        zeroRand (hfreshOfFresh (by decide))).2.rows = emptyDB.rows ++ [rowC8]) ∧
    ((∀ d, (some 5 : Option Int) = some d → 0 < d →
        rowC8.expires_at = some (rowC8.created_at + d * 86400)) ∧
     ((∀ d, (some 5 : Option Int) = some d → d ≤ 0) → rowC8.expires_at = none)) :=
  ⟨by decide,
    claim_C8_expiry emptyDB ("https://example.com/page") (some ("mycode")) (some 5) none none 0
      zeroRand (hfreshOfFresh (by decide)) rowC8 (by decide)⟩

/-- C10: a custom code longer than 10 characters after trimming always
makes `create` fail — either the uniqueness probe reports a conflict, or
the INSERT is rejected by the VARCHAR(10) `short_code` column — and the
registry is unchanged; the spec states no such length limit. -/
theorem claim_C10_long_code_fails (db : DB) (url c : String) (expiry_days : Option Int)
    (notes creator : Option String) (now : Int) (rand : Nat → Nat → Fin 62)
    (hfresh : pyStrip ((some c : Option String).getD ("")) = "" →
      dedupLookup db url = none → ∃ n, codeTaken db (candidate rand n) = false)
    (hne : pyStrip c ≠ "")
    (hlong : 10 < (pyStrip c).length) :
    ∃ msg, add_url db url (some c) expiry_days notes creator now rand hfresh
      = ((none, some msg), db) := by
  by_cases ht : codeTaken db (pyStrip c) = true
  · exact ⟨_, add_url_conflict hne ht⟩
  · have ht2 : codeTaken db (pyStrip c) = false := by
      cases hb : codeTaken db (pyStrip c) with
      | true => exact absurd hb ht
      | false => rfl
    have hne2 : pyStrip ((some c : Option String).getD ("")) ≠ "" := hne
    have ht3 : codeTaken db (pyStrip ((some c : Option String).getD (""))) = false := ht2
    refine ⟨("value too long for type character varying(10)"), ?_⟩
    rw [add_url_custom_go hne2 ht3]
    simp only [Option.getD_some]
    exact insertStep_long db url (pyStrip c) (expiresAtOf expiry_days now) notes creator true now
      hlong (pyStrip_drop10_not_space c hlong)

/-- C10 witness: an 11-character custom code on the empty registry. -/
theorem claim_C10_witness :
    (pyStrip ("abcdefghijk") ≠ "") ∧ (10 < (pyStrip ("abcdefghijk")).length) ∧
    ∃ msg,
      add_url emptyDB ("https://example.com/page") (some ("abcdefghijk")) none none none 0
          zeroRand (hfreshOfFresh (by decide))
        = ((none, some msg), emptyDB) :=
  ⟨by decide, by decide,
    claim_C10_long_code_fails emptyDB ("https://example.com/page") ("abcdefghijk") none none
      none 0 zeroRand (hfreshOfFresh (by decide)) (by decide) (by decide)⟩
